import Mathlib

/-!
Shallow embedding of the tokenizer in `src/src/lib/lexer.rs` of the
CCinRust repository (`pub mod lexer`), together with theorems settling the
specification claims about it.

Conventions of the embedding:
* Rust strings are modelled as `List Char`; the `Peekable<Chars>` cursor is
  the remaining suffix of that list.
* `Lexer::next` returning `Err(LexerError::new("Finish"))` and setting the
  `status` flag to `true` is modelled by the places that call it: every
  abort point of `lex` records the token list accumulated so far, the value
  of the `status` flag at that moment, and which `LexerError` (or panic)
  ended the scan.
* Character-class functions from the Rust standard library
  (`is_digit(10)`, `is_ascii_control`, `is_ascii_alphabetic`,
  `is_ascii_digit`, `is_alphabetic`, `is_numeric`) are defined on the ASCII
  range, which covers every input considered here.
* The main `loop` of `Lexer::lex` is written with a fuel parameter; each
  iteration of the Rust loop consumes at least one input character, so fuel
  `input.length + 1` always suffices and the fuel-exhaustion branch is
  unreachable from the top-level entry point `lex`.
-/

namespace Lexer

/-- ASCII single-quote character (code 39), the second quote alternative in
the string-literal arm of `Lexer::lex` (lexer.rs line 316). -/
def squote : Char := Char.ofNat 39

/-- Rust `char::is_digit(10)`: an ASCII decimal digit (lexer.rs lines 407
and 409). -/
def isDigit10 (c : Char) : Bool := 48 ≤ c.toNat && c.toNat ≤ 57

/-- Rust `char::is_numeric` as used on fraction digits (lexer.rs line 416),
on the ASCII range: a decimal digit. -/
def isNumericChar (c : Char) : Bool := 48 ≤ c.toNat && c.toNat ≤ 57

/-- Rust `char::is_alphabetic` as used on the dispatch character
(lexer.rs line 427), on the ASCII range: an ASCII letter. -/
def isAlphabetic (c : Char) : Bool :=
  (65 ≤ c.toNat && c.toNat ≤ 90) || (97 ≤ c.toNat && c.toNat ≤ 122)

/-- Rust `char::is_ascii_alphabetic` (lexer.rs line 433). -/
def isAsciiAlphabetic (c : Char) : Bool :=
  (65 ≤ c.toNat && c.toNat ≤ 90) || (97 ≤ c.toNat && c.toNat ≤ 122)

/-- Rust `char::is_ascii_digit` (lexer.rs line 433). -/
def isAsciiDigit (c : Char) : Bool := 48 ≤ c.toNat && c.toNat ≤ 57

/-- Rust `char::is_ascii_control` (lexer.rs line 297): an ASCII character
with code below 32, or the DEL character 127. -/
def isAsciiControl (c : Char) : Bool := c.toNat < 32 || c.toNat == 127

/-- The `SpecialSymbol` enum of lexer.rs lines 12 to 45. -/
inductive SpecialSymbol
  | LeftAngleBracket
  | RightAngleBracket
  | LeftParenthesis
  | RightParenthesis
  | LeftBrace
  | RightBrace
  | LeftSquareParenthesis
  | RightSquareParenthesis
  | Sharp
  | Assign
  | Equal
  | GreaterOrEqual
  | SmallerOrEqual
  | Comma
  | Semicolon
deriving DecidableEq

/-- The `FromStr` implementation for `SpecialSymbol` (lexer.rs lines 50 to
70): a match on the lexeme text, `Err(SymbolError)` (here `none`) on
anything not listed. -/
def SpecialSymbol.from_str (s : List Char) : Option SpecialSymbol :=
  if s = ['#'] then some .Sharp
  else if s = ['<'] then some .LeftAngleBracket
  else if s = ['>'] then some .RightAngleBracket
  else if s = ['('] then some .LeftParenthesis
  else if s = [')'] then some .RightParenthesis
  else if s = ['{'] then some .LeftBrace
  else if s = ['}'] then some .RightBrace
  else if s = ['['] then some .LeftSquareParenthesis
  else if s = [']'] then some .RightSquareParenthesis
  else if s = ['='] then some .Assign
  else if s = ['=', '='] then some .Equal
  else if s = ['>', '='] then some .GreaterOrEqual
  else if s = ['<', '='] then some .SmallerOrEqual
  else if s = [','] then some .Comma
  else if s = [';'] then some .Semicolon
  else none

/-- The `Keyword` enum of lexer.rs lines 113 to 153. -/
inductive Keyword
  | Const
  | Enum
  | Return
  | New
  | Delete
  | Include
  | Void
  | Int
  | Double
  | Do
  | For
  | While
  | Break
  | Continue
  | If
  | Else
  | Switch
  | Case
deriving DecidableEq

/-- The `FromStr` implementation for `Keyword` (lexer.rs lines 158 to
183). -/
def Keyword.from_str (s : List Char) : Option Keyword :=
  if s = "const".toList then some .Const
  else if s = "enum".toList then some .Enum
  else if s = "return".toList then some .Return
  else if s = "new".toList then some .New
  else if s = "delete".toList then some .Delete
  else if s = "include".toList then some .Include
  else if s = "void".toList then some .Void
  else if s = "int".toList then some .Int
  else if s = "double".toList then some .Double
  else if s = "do".toList then some .Do
  else if s = "for".toList then some .For
  else if s = "while".toList then some .While
  else if s = "break".toList then some .Break
  else if s = "continue".toList then some .Continue
  else if s = "if".toList then some .If
  else if s = "else".toList then some .Else
  else if s = "switch".toList then some .Switch
  else if s = "case".toList then some .Case
  else none

/-- The `Token` enum of lexer.rs lines 186 to 196; string payloads are
lists of characters. -/
inductive Token
  | Keyword : Keyword → Token
  | SpecialSymbol : SpecialSymbol → Token
  | Comment : List Char → Token
  | NumberLiteral : List Char → Token
  | StringLiteral : List Char → Token
  | Identifier : List Char → Token
deriving DecidableEq

/-- The distinct `LexerError` values that can end a run of `Lexer::lex`,
identified by the message passed to `LexerError::new` (or to the `From`
conversion from `SymbolError`). -/
inductive LexError
  | Finish
  | UnexpectedStringEOF
  | SymbolErrorConverted
  | UnexpectedSymbol
deriving DecidableEq

/-- How a run of `Lexer::lex` ended: with a `LexerError`, or with the
panic of `Option::unwrap` on `None` (lexer.rs line 409). `fuelOut` is an
artifact of the fuel-indexed loop and is unreachable from `lex`, whose fuel
exceeds the input length. -/
inductive LexOutcome
  | err : LexError → LexOutcome
  | panic : LexOutcome
  | fuelOut : LexOutcome
deriving DecidableEq

/-- The observable final state of a `Lexer` after `Lexer::lex` returns:
the `tokens` vector, the `status` flag (`true` for finish normally,
lexer.rs line 249, set exactly when `Lexer::next` is called on an empty
buffer, lexer.rs line 277), and how the scan ended. -/
structure LexResult where
  tokens : List Token
  status : Bool
  outcome : LexOutcome
deriving DecidableEq

/-- The `Lexer::get_status` accessor (lexer.rs lines 463 to 465). -/
def get_status (l : LexResult) : Bool := l.status

/-- The string-literal loop of `Lexer::lex` (lexer.rs lines 317 to 332):
collect characters until one equal to the opening quote `q`; `none` when
`Lexer::next` hits end of input first (which sets `status` to `true` before
the loop converts the error). -/
def stringLoop (q : Char) : List Char → Option (List Char × List Char)
  | [] => none
  | c :: rest =>
    if c = q then some ([], rest)
    else
      match stringLoop q rest with
      | some (s, r) => some (c :: s, r)
      | none => none

/-- The block-comment loop of `Lexer::lex` (lexer.rs lines 348 to 372):
state 0 is outside, state 1 just saw a `*`, state 2 is done. The loop is
entered with the peeked `*` of the opening delimiter still in the input,
exactly as in the source, because `peek` does not consume it. On a `/` in
state 0 nothing is pushed; on any other character after state 1 a literal
`*` is pushed first. `none` models `Lexer::next` propagating the
end-of-input error (status `true`). -/
def commentLoop : Nat → List Char → List Char → Option (List Char × List Char)
  | 2, s, input => some (s, input)
  | _, _, [] => none
  | state, s, ch :: rest =>
    if ch = '*' then commentLoop 1 s rest
    else if ch = '/' then commentLoop (if state = 1 then 2 else state) s rest
    else commentLoop 0 (s ++ (if state = 1 then ['*'] else []) ++ [ch]) rest

/-- The `Lexer::get_line` helper (lexer.rs lines 292 to 307): collect
characters up to, and excluding, the first ASCII control character; `none`
when `Lexer::next` hits end of input first (status `true`, error
propagated). -/
def get_line (buf : List Char) : List Char → Option (List Char × List Char)
  | [] => none
  | c :: rest =>
    if isAsciiControl c then some (buf, rest)
    else get_line (buf ++ [c]) rest

/-- The digit-run loop of `Lexer::lex` (lexer.rs lines 409 to 411):
`while self.peek().unwrap().is_digit(10)` consumes digits; `none` models
the panic of `unwrap` when `peek` returns `None` at end of input. -/
def digitRun (num : List Char) : List Char → Option (List Char × List Char)
  | [] => none
  | c :: rest =>
    if isDigit10 c then digitRun (num ++ [c]) rest
    else some (num, c :: rest)

/-- The fraction loop of `Lexer::lex` (lexer.rs lines 415 to 421): consume
numeric characters while `peek` yields one; exits without consuming on a
non-numeric character or end of input. -/
def fracRun (num : List Char) : List Char → List Char × List Char
  | [] => (num, [])
  | c :: rest =>
    if isNumericChar c then fracRun (num ++ [c]) rest
    else (num, c :: rest)

/-- The identifier loop of `Lexer::lex` (lexer.rs lines 432 to 439):
consume ASCII letters, ASCII digits and dots. -/
def identRun (s : List Char) : List Char → List Char × List Char
  | [] => (s, [])
  | c :: rest =>
    if isAsciiAlphabetic c || isAsciiDigit c || c == '.' then
      identRun (s ++ [c]) rest
    else (s, c :: rest)

/-- The lexeme built by the operator arm of `Lexer::lex` (lexer.rs lines
400 to 403): push `=` onto the one-character string when `peek` yields `=`
(the peeked character is not consumed). -/
def opLexeme (ch : Char) (rest : List Char) : List Char :=
  match rest with
  | '=' :: _ => [ch, '=']
  | _ => [ch]

/-- The main dispatch loop of `Lexer::lex` (lexer.rs lines 310 to 460),
indexed by fuel. `toks` is the `tokens` vector accumulated so far and the
list argument is the remaining input. Every Rust loop iteration consumes at
least one character, so any fuel exceeding the input length makes the
`fuelOut` branch unreachable. -/
def lexLoop : Nat → List Token → List Char → LexResult
  | 0, toks, _ => ⟨toks, false, .fuelOut⟩
  | _ + 1, toks, [] => ⟨toks, true, .err .Finish⟩
  | fuel + 1, toks, ch :: rest =>
    if ch = '"' ∨ ch = squote then
      match stringLoop ch rest with
      | some (s, r) => lexLoop fuel (toks ++ [.StringLiteral s]) r
      | none => ⟨toks, true, .err .UnexpectedStringEOF⟩
    else if ch = '/' then
      match rest with
      | [] => lexLoop fuel toks rest
      | n :: _ =>
        if n = '*' then
          match commentLoop 0 [] rest with
          | some (s, r) => lexLoop fuel (toks ++ [.Comment s]) r
          | none => ⟨toks, true, .err .Finish⟩
        else if n = '=' then
          match SpecialSymbol.from_str [ch, n] with
          | some sym => lexLoop fuel (toks ++ [.SpecialSymbol sym]) rest
          | none => ⟨toks, false, .err .SymbolErrorConverted⟩
        else if n = '/' then
          match get_line [] rest with
          | some (s, r) => lexLoop fuel (toks ++ [.Comment s]) r
          | none => ⟨toks, true, .err .Finish⟩
        else
          match SpecialSymbol.from_str [ch] with
          | some sym => lexLoop fuel (toks ++ [.SpecialSymbol sym]) rest
          | none => ⟨toks, false, .err .SymbolErrorConverted⟩
    else if ch = '+' ∨ ch = '-' ∨ ch = '*' ∨ ch = '&' ∨ ch = '|' ∨ ch = '^' ∨ ch = '=' then
      match SpecialSymbol.from_str (opLexeme ch rest) with
      | some sym => lexLoop fuel (toks ++ [.SpecialSymbol sym]) rest
      | none => ⟨toks, false, .err .SymbolErrorConverted⟩
    else if isDigit10 ch then
      match digitRun [ch] rest with
      | none => ⟨toks, false, .panic⟩
      | some (num, r) =>
        match r with
        | '.' :: _ =>
          match fracRun (num ++ ['.']) r with
          | (num2, r2) => lexLoop fuel (toks ++ [.NumberLiteral num2]) r2
        | _ => lexLoop fuel (toks ++ [.NumberLiteral num]) r
    else if isAlphabetic ch then
      match identRun [ch] rest with
      | (s, r) =>
        match Keyword.from_str s with
        | some kw => lexLoop fuel (toks ++ [.Keyword kw]) r
        | none => lexLoop fuel (toks ++ [.Identifier s]) r
    else if ch = ' ' ∨ ch = '\n' then
      lexLoop fuel toks rest
    else
      match SpecialSymbol.from_str [ch] with
      | some sym => lexLoop fuel (toks ++ [.SpecialSymbol sym]) rest
      | none => ⟨toks, false, .err .UnexpectedSymbol⟩

/-- Running `Lexer::new(input)` followed by `Lexer::lex`: the loop starts
with an empty token vector and fuel strictly greater than the input
length. -/
def lex (input : List Char) : LexResult := lexLoop (input.length + 1) [] input

end Lexer

namespace Lexer

/-- C1: the claim states maximal munch for compound operators — an
operator character followed by `=` yields exactly one two-character Symbol
token and both characters are consumed. The code refutes it: the operator
arm builds the two-character lexeme from the peeked `=` but never consumes
it, so on input `==` the scan emits `Symbol(==)` and then a spurious
`Symbol(=)` from the leftover character; and on input `+=` the scan aborts
with the `SymbolError`-derived error because `+=` has no entry in
`SpecialSymbol::from_str`. This theorem evaluates the code at both failing
inputs. -/
theorem c1_compound_operator_behavior :
    lex ['=', '='] = ⟨[.SpecialSymbol .Equal, .SpecialSymbol .Assign], true, .err .Finish⟩ ∧
    lex ['+', '='] = ⟨[], false, .err .SymbolErrorConverted⟩ := by decide

/-- C2: the claim states every entry of the fixed symbol table — including
`+ - * & | ^`, a lone `/`, and `/=` — is recognized and emitted as a
Symbol token. The code refutes it: `SpecialSymbol::from_str` has no entry
for any of these lexemes, so the `?` operator aborts `Lexer::lex` with the
`SymbolError`-derived error and no token is emitted. This theorem
evaluates the code at each of those inputs. -/
theorem c2_operator_table_entries_rejected :
    lex ['+'] = ⟨[], false, .err .SymbolErrorConverted⟩ ∧
    lex ['-'] = ⟨[], false, .err .SymbolErrorConverted⟩ ∧
    lex ['*', 'a'] = ⟨[], false, .err .SymbolErrorConverted⟩ ∧
    lex ['&'] = ⟨[], false, .err .SymbolErrorConverted⟩ ∧
    lex ['|'] = ⟨[], false, .err .SymbolErrorConverted⟩ ∧
    lex ['^'] = ⟨[], false, .err .SymbolErrorConverted⟩ ∧
    lex ['/', 'a'] = ⟨[], false, .err .SymbolErrorConverted⟩ ∧
    lex ['/', '='] = ⟨[], false, .err .SymbolErrorConverted⟩ := by decide

/-- C3: the claim states that a digit run ending exactly at end of input
terminates the literal normally, emitting `NumberLiteral("123")` on input
`123` with clean termination. The code refutes it: the digit loop calls
`self.peek().unwrap()` after consuming the last digit, and `unwrap` on
`None` panics, so on input `123` the scan panics with no token emitted.
This theorem evaluates the code at the failing input. -/
theorem c3_digit_run_at_eof_panics :
    lex "123".toList = ⟨[], false, .panic⟩ := by decide

/-- C4: the claim states the termination status reported to the caller
indicates malformed input whenever the input ends inside a malformed
construct such as an unterminated string. The code refutes it: `next` sets
the `status` flag to `true` (finish normally) the moment the buffer is
exhausted, even inside the string loop, so after the unterminated string
`"abc` the caller observes `get_status = true`, the same status as for a
clean scan of empty input. -/
theorem c4_status_true_on_unterminated_string :
    lex ['"', 'a', 'b', 'c'] = ⟨[], true, .err .UnexpectedStringEOF⟩ ∧
    get_status (lex ['"', 'a', 'b', 'c']) = get_status (lex []) := by decide

/-- C5: the claim states input `3.14` yields exactly one
`NumberLiteral("3.14")` with clean termination. The code refutes it: the
fraction branch pushes the peeked `.` into the literal text without
consuming it from the buffer, so the fraction loop stops immediately on
that same dot; the scan emits `NumberLiteral("3.")` and then aborts with
the unexpected-symbol error when the dispatch loop reads the leftover `.`.
This theorem evaluates the code at the failing input. -/
theorem c5_decimal_fraction_dot_not_consumed :
    lex "3.14".toList = ⟨[.NumberLiteral ['3', '.']], false, .err .UnexpectedSymbol⟩ := by
  decide

/-- C6: the claim states input `/* a * b */` yields one Comment token with
payload ` a * b `, the opening delimiter's `*` stripped. The code refutes
it: the `*` of the opening delimiter is only peeked, never consumed, so
the comment state machine reads it as the first character, enters the
saw-star state, and flushes a literal `*` into the buffer, producing
payload `* a * b `. This theorem evaluates the code at the failing
input. -/
theorem c6_block_comment_keeps_opening_star :
    lex "/* a * b */".toList = ⟨[.Comment "* a * b ".toList], true, .err .Finish⟩ := by
  decide

/-- C7: the claim states an unterminated block comment fails with an
explicit UnterminatedComment error distinct from clean end of input. The
code refutes the error-reporting half (termination does hold): the comment
loop's `self.next()?` propagates the generic end-of-input error `Finish`
with the `status` flag already set to `true`, so the observable outcome of
`/* never closed` is literally identical to that of scanning the empty
input — no UnterminatedComment error exists. -/
theorem c7_unterminated_comment_looks_like_clean_eof :
    lex "/* never closed".toList = lex [] ∧
    lex "/* never closed".toList = ⟨[], true, .err .Finish⟩ := by decide

/-- C8: the claim states input `// note` followed by a newline yields one
Comment token with payload `note`, the second slash excluded. The code
refutes it: the second `/` is only peeked, never consumed, so `get_line`
re-reads it as the first character of the line and the payload is
`/ note`. This theorem evaluates the code at the failing input. -/
theorem c8_line_comment_keeps_second_slash :
    lex "// note\n".toList = ⟨[.Comment "/ note".toList], true, .err .Finish⟩ := by
  decide

/-- C9: when the scanner reaches a `/` that is the last character of the
input, `peek` returns `None`, the `if let` in the `/` arm has no else
branch, and the loop simply continues: no token is emitted for the slash,
no error beyond the clean `Finish` signal is raised, and the `status` flag
reads `true` (finish normally). This holds at the top level for the input
consisting of the single character `/`, and at any point of a scan — for
every accumulated token list and sufficient fuel, the loop on remaining
input `/` finishes cleanly with the tokens unchanged. -/
theorem c9_trailing_slash_silently_dropped :
    lex ['/'] = ⟨[], true, .err .Finish⟩ ∧
    ∀ (fuel : Nat) (toks : List Token), 2 ≤ fuel →
      lexLoop fuel toks ['/'] = ⟨toks, true, .err .Finish⟩ := by
  refine ⟨by decide, ?_⟩
  intro fuel toks h
  obtain ⟨n, rfl⟩ : ∃ n, fuel = n + 2 := ⟨fuel - 2, by omega⟩
  rfl

/-- Witness for C9: the loop with fuel 2 and no accumulated tokens, on
remaining input `/`, finishes cleanly with no tokens. -/
theorem c9_trailing_slash_witness :
    lexLoop 2 [] ['/'] = ⟨[], true, .err .Finish⟩ :=
  c9_trailing_slash_silently_dropped.2 2 [] (by decide)

/-- C10: only space and newline are skipped as whitespace. Every other
ASCII control or whitespace character (codes below 32 other than newline
10, and DEL 127 — in particular tab, code 9) reaches the default dispatch
arm, fails the `SpecialSymbol::from_str` lookup, and aborts the scan with
the unexpected-symbol error, while space and newline themselves are
skipped and lead to clean termination with no token. -/
theorem c10_only_space_and_newline_skipped :
    (∀ n : Nat, n < 32 → n ≠ 10 →
      lex [Char.ofNat n] = ⟨[], false, .err .UnexpectedSymbol⟩) ∧
    lex [Char.ofNat 127] = ⟨[], false, .err .UnexpectedSymbol⟩ ∧
    lex [' '] = ⟨[], true, .err .Finish⟩ ∧
    lex ['\n'] = ⟨[], true, .err .Finish⟩ := by decide

/-- Witness for C10: the tab character, code 9, aborts the scan with the
unexpected-symbol error instead of being skipped. -/
theorem c10_tab_witness :
    lex [Char.ofNat 9] = ⟨[], false, .err .UnexpectedSymbol⟩ :=
  c10_only_space_and_newline_skipped.1 9 (by decide) (by decide)

end Lexer
